import Mathlib

/-!
Verification development for the turbojpeg-torch repository.

The repository consists of three Python source files:

  * `setup.py` — build script: detects the installed libjpeg-turbo
    version through package-manager subprocesses and derives the
    package version string;
  * `bundle_libs.py` — packaging script: locates the libjpeg-turbo
    shared library, copies it into a wheel archive under a
    `turbojpeg_libs` directory, patches rpaths on Linux, and repacks
    the wheel;
  * `turbojpeg/__init__.py` — symbol re-export module.

Each definition below is a shallow embedding of the corresponding
Python function; subprocess and filesystem behaviour is supplied by an
explicit environment so every definition stays executable.
-/

namespace TurboJpegTorch

/-! ## String and character-list helpers -/

/-- Concatenation of path components with a slash, modelling
`os.path.join(dir, name)` / `Path(dir) / name` for the absolute
directory paths appearing in the scripts. -/
def joinPath (dir name : String) : String := dir ++ "/" ++ name

/-- Python `str.strip()` on a character list: drop whitespace from both
ends. -/
def stripChars (l : List Char) : List Char :=
  ((l.dropWhile Char.isWhitespace).reverse.dropWhile Char.isWhitespace).reverse

/-- Longest leading run of decimal digits, together with the rest of the
input; models a greedy regex atom `\d+` (which matches maximally, and
here never needs to backtrack because the following regex token is a
literal dot, not a digit). -/
def digitSpan : List Char → List Char × List Char
  | [] => ([], [])
  | c :: cs =>
      if c.isDigit then
        let p := digitSpan cs
        (c :: p.1, p.2)
      else ([], c :: cs)

/-- Anchored match of the regular expression `(\d+)\.(\d+)\.(\d+)` at
the head of the input, as performed by Python `re.match`; returns the
three digit groups on success. -/
def reMatchVer (l : List Char) : Option (List Char × List Char × List Char) :=
  if (digitSpan l).1 = [] then none else
  match (digitSpan l).2 with
  | [] => none
  | c1 :: r1 =>
      if c1 = '.' then
        if (digitSpan r1).1 = [] then none else
        match (digitSpan r1).2 with
        | [] => none
        | c2 :: r2 =>
            if c2 = '.' then
              if (digitSpan r2).1 = [] then none
              else some ((digitSpan l).1, (digitSpan r1).1, (digitSpan r2).1)
            else none
      else none

/-- Unanchored search for `(\d+)\.(\d+)\.(\d+)`, as performed by Python
`re.search`: try an anchored match at each successive start position
and return the first success. -/
def reSearchVer : List Char → Option (List Char × List Char × List Char)
  | [] => reMatchVer []
  | c :: cs =>
      match reMatchVer (c :: cs) with
      | some r => some r
      | none => reSearchVer cs

/-- First `some` in a list of options; models a sequence of attempts
with early return. -/
def firstSome {α : Type} : List (Option α) → Option α
  | [] => none
  | o :: rest =>
      match o with
      | some a => some a
      | none => firstSome rest

/-! ## setup.py — version detection

The outcome of one `subprocess.run` call.  `notFound` models the
`FileNotFoundError` raised when the executable does not exist (the only
exception the script catches); `ran` carries the return code and the
captured standard output. -/

/-- Result of a `subprocess.run` invocation. -/
inductive CmdResult where
  | notFound
  | ran (returncode : Int) (stdout : String)
  deriving DecidableEq, Repr

/-- Behaviour of the package-manager subprocesses that
`get_turbojpeg_version` may invoke.  Each field records the result of
one fixed command line; `dpkgQueryVersion` is indexed by the queried
package name. -/
structure VersionEnv where
  pkgConfigModversionLibturbojpeg : CmdResult
  dpkgQueryVersion : String → CmdResult
  rpmQueryLibjpegTurboDevel : CmdResult
  brewListVersionsJpegTurbo : CmdResult

/-- Suffix string `tj` followed by the three matched digit groups,
modelling the f-string that interpolates `major`, `minor` and `patch`
in `setup.py`. -/
def mkTj (g1 g2 g3 : List Char) : String :=
  String.mk ('t' :: 'j' :: (g1 ++ g2 ++ g3))

/-- One version-detection attempt that parses with `re.match`: if the
command ran with return code 0, strip its output and try the anchored
version regex; on a match build the `tj...` suffix (setup.py lines
20-68, the pkg-config, dpkg-query and rpm branches). -/
def versionSuffixOfMatch (r : CmdResult) : Option String :=
  match r with
  | CmdResult.notFound => none
  | CmdResult.ran rc out =>
      if rc = 0 then
        match reMatchVer (stripChars out.data) with
        | some (g1, g2, g3) => some (mkTj g1 g2 g3)
        | none => none
      else none

/-- One version-detection attempt that parses with `re.search`: like
`versionSuffixOfMatch` but the regex may match anywhere in the output
(setup.py lines 70-85, the brew branch). -/
def versionSuffixOfSearch (r : CmdResult) : Option String :=
  match r with
  | CmdResult.notFound => none
  | CmdResult.ran rc out =>
      if rc = 0 then
        match reSearchVer (stripChars out.data) with
        | some (g1, g2, g3) => some (mkTj g1 g2 g3)
        | none => none
      else none

/-- Embedding of `get_turbojpeg_version` (setup.py lines 17-88): try
pkg-config, then dpkg-query for the package names `libturbojpeg`,
`libturbojpeg0` and `libjpeg-turbo8`, then rpm, then brew, returning at
the first attempt whose output parses; `None` when all fail. -/
def get_turbojpeg_version (env : VersionEnv) : Option String :=
  match versionSuffixOfMatch env.pkgConfigModversionLibturbojpeg with
  | some s => some s
  | none =>
  match versionSuffixOfMatch (env.dpkgQueryVersion "libturbojpeg") with
  | some s => some s
  | none =>
  match versionSuffixOfMatch (env.dpkgQueryVersion "libturbojpeg0") with
  | some s => some s
  | none =>
  match versionSuffixOfMatch (env.dpkgQueryVersion "libjpeg-turbo8") with
  | some s => some s
  | none =>
  match versionSuffixOfMatch env.rpmQueryLibjpegTurboDevel with
  | some s => some s
  | none => versionSuffixOfSearch env.brewListVersionsJpegTurbo

/-- Specification-side restatement of the claimed attempt order: the
six package-manager attempts, in the order the claim lists them. -/
def versionAttemptsInOrder (env : VersionEnv) : List (Option String) :=
  [versionSuffixOfMatch env.pkgConfigModversionLibturbojpeg,
   versionSuffixOfMatch (env.dpkgQueryVersion "libturbojpeg"),
   versionSuffixOfMatch (env.dpkgQueryVersion "libturbojpeg0"),
   versionSuffixOfMatch (env.dpkgQueryVersion "libjpeg-turbo8"),
   versionSuffixOfMatch env.rpmQueryLibjpegTurboDevel,
   versionSuffixOfSearch env.brewListVersionsJpegTurbo]

/-- Specification-side detector: the first successful attempt in the
fixed order, as the claim words it. -/
def detectVersionSuffixSpec (env : VersionEnv) : Option String :=
  firstSome (versionAttemptsInOrder env)

/-- Base version constant of setup.py (line 14). -/
def BASE_VERSION : String := "2.0.0"

/-- Embedding of `get_version` (setup.py lines 91-96).  The Python
truthiness test `if tj_suffix:` is false for `None` and for the empty
string, so an empty suffix would also fall back to the base version. -/
def get_version (env : VersionEnv) : String :=
  match get_turbojpeg_version env with
  | some s => if s = "" then BASE_VERSION else BASE_VERSION ++ "+" ++ s
  | none => BASE_VERSION

/-! ## bundle_libs.py — locating and bundling the shared library -/

/-- Candidate directories and library file name returned by the
platform dispatch in `get_turbojpeg_lib_path` (bundle_libs.py lines
24-49); `none` for any system other than Linux, Darwin and Windows. -/
def systemLibCandidates (system : String) : Option (List String × String) :=
  if system = "Linux" then
    some (["/usr/lib/x86_64-linux-gnu",
           "/usr/lib64",
           "/usr/lib",
           "/opt/libjpeg-turbo/lib64",
           "/usr/local/lib"], "libturbojpeg.so.0")
  else if system = "Darwin" then
    some (["/usr/local/opt/jpeg-turbo/lib",
           "/opt/homebrew/opt/jpeg-turbo/lib",
           "/opt/libjpeg-turbo/lib64"], "libturbojpeg.dylib")
  else if system = "Windows" then
    some (["C:/libjpeg-turbo64/bin",
           "C:/libjpeg-turbo/bin"], "turbojpeg.dll")
  else none

/-- The candidate-scanning loop of `get_turbojpeg_lib_path`
(bundle_libs.py lines 51-56): return the first directory in which the
joined library path exists, else `(None, None)`. -/
def findLibLoop (pathExists : String → Bool) (libName : String) :
    List String → Option String × Option String
  | [] => (none, none)
  | p :: rest =>
      if pathExists (joinPath p libName) then (some p, some libName)
      else findLibLoop pathExists libName rest

/-- Embedding of `get_turbojpeg_lib_path` (bundle_libs.py lines 20-56);
`pathExists` supplies the behaviour of `os.path.exists`. -/
def get_turbojpeg_lib_path (system : String) (pathExists : String → Bool) :
    Option String × Option String :=
  match systemLibCandidates system with
  | none => (none, none)
  | some (paths, libName) => findLibLoop pathExists libName paths

/-- Embedding of `patch_rpath` (bundle_libs.py lines 75-88), returning
the list of subprocess command lines it runs: one `patchelf
--set-rpath` invocation on Linux, none on any other platform (the
function returns before the `subprocess.run` call). The `except`
branches only print warnings, so failure of the invocation changes
nothing that the model tracks. -/
def patch_rpath (system : String) (libPath : String) (newRpath : String) :
    List (List String) :=
  if system = "Linux" then
    [["patchelf", "--set-rpath", newRpath, libPath]]
  else []

/-- A file in the extracted wheel tree: its byte content and whether it
is a symbolic link (for a symlink, `content` records the link
target). -/
structure Entry where
  content : String
  isSymlink : Bool
  deriving DecidableEq, Repr

/-- The extracted wheel tree as an association list from
slash-separated relative paths to file entries. -/
abbrev FileTree := List (String × Entry)

/-- Whether a path is present in the tree. -/
def existsPath (t : FileTree) (p : String) : Bool :=
  t.any (fun x => x.1 = p)

/-- Write a file at a path: overwrite the entry in place when the path
exists, append it otherwise (models `shutil.copy2` /
`Path.symlink_to` targets inside the extraction directory). -/
def writeFile (t : FileTree) (p : String) (e : Entry) : FileTree :=
  if existsPath t p then
    t.map (fun x => if x.1 = p then (p, e) else x)
  else t ++ [(p, e)]

/-- A directory entry of the system library directory, as seen by
`Path.glob` and `Path.is_symlink`: its file name, whether it is a
symlink, the file name its `resolve()` yields (itself for a regular
file), and the content of the resolved file (what `shutil.copy2`
copies). -/
structure LibDirFile where
  name : String
  isSymlink : Bool
  resolvedName : String
  content : String
  deriving DecidableEq, Repr

/-- Environment of one `bundle_wheel` run: the platform, the
`os.path.exists` oracle, the listing of the chosen library directory
(in glob order), the entries of the input wheel archive (path,
content), the wheel file name and the output directory. -/
structure BundleEnv where
  system : String
  pathExists : String → Bool
  libDirListing : String → List LibDirFile
  wheelEntries : List (String × String)
  wheelName : String
  outputDir : String

/-- Relative path of a file inside the `turbojpeg_libs` directory of
the extracted tree. -/
def libsPath (name : String) : String := "turbojpeg_libs/" ++ name

/-- The file name of a tree path that lies directly inside
`turbojpeg_libs/`, if it does. -/
def libsMember (p : String) : Option String :=
  if "turbojpeg_libs/".isPrefixOf p then
    let rest := p.drop 15
    if (rest.splitOn "/").length = 1 then some rest else none
  else none

/-- Glob pattern `*.so*` on a file name: fnmatch semantics make it
equivalent to containing `.so` as a substring. -/
def globSoStar (name : String) : Bool :=
  (name.splitOn ".so").length ≥ 2

/-- Whether a tree path is matched by
`extract_dir.glob("*.dist-info/RECORD")`: a path of exactly two
components whose directory component ends in `.dist-info` and whose
file component is `RECORD`. -/
def isDistInfoRecord (p : String) : Bool :=
  match p.splitOn "/" with
  | [d, f] => d.endsWith ".dist-info" && f = "RECORD"
  | _ => false

/-- Externally visible filesystem actions of `bundle_wheel`: reading
and extracting the input wheel, and writing the repacked output
wheel. -/
inductive Effect where
  | openWheel (path : String)
  | writeWheel (path : String)
  deriving DecidableEq, Repr

/-- Result of a successful `bundle_wheel` run: the returned output
wheel path, the entries of the repacked archive, and the subprocess
command lines issued for rpath patching. -/
structure BundleOutput where
  outputPath : String
  archive : FileTree
  patchCalls : List (List String)
  deriving Repr

/-- Symlink creation with the expected library name (bundle_libs.py
lines 143-147): after a symlinked main library was copied under its
resolved name, add a symlink named `libName` pointing at the real file
unless that destination already exists. -/
def addExpectedSymlink (t : FileTree) (libName realName : String) : FileTree :=
  if existsPath t (libsPath libName) then t
  else writeFile t (libsPath libName) { content := realName, isSymlink := true }

/-- Copy of the main library, continued: dispatch on whether the
library path is a symlink (bundle_libs.py lines 136-151). -/
def copyMainLib (tree : FileTree) (libName : String) (mainLib : LibDirFile) :
    FileTree :=
  if mainLib.isSymlink then
    addExpectedSymlink
      (writeFile tree (libsPath mainLib.resolvedName)
        { content := mainLib.content, isSymlink := false })
      libName mainLib.resolvedName
  else
    writeFile tree (libsPath libName)
      { content := mainLib.content, isSymlink := false }

/-- Body of the Linux-only loop over the library directory
(bundle_libs.py lines 154-161): a non-symlink `libturbojpeg.so*` file
is copied unless its destination already exists. -/
def versionedStep (t : FileTree) (f : LibDirFile) : FileTree :=
  if f.name.startsWith "libturbojpeg.so" && !f.isSymlink then
    if existsPath t (libsPath f.name) then t
    else writeFile t (libsPath f.name) { content := f.content, isSymlink := false }
  else t

/-- The whole Linux-only loop over the library directory. -/
def copyVersionedLibs (libFiles : List LibDirFile) (tree : FileTree) : FileTree :=
  libFiles.foldl versionedStep tree

/-- Rpath-patching pass (bundle_libs.py lines 163-167): on Linux, call
`patch_rpath` with `$ORIGIN` on every non-symlink `*.so*` file of the
`turbojpeg_libs` directory; the result collects the issued subprocess
command lines. -/
def patchPass (system : String) (tree : FileTree) : List (List String) :=
  if system = "Linux" then
    (tree.filter (fun pe =>
        (match libsMember pe.1 with
         | some n => globSoStar n
         | none => false) && !pe.2.isSymlink)).flatMap
      (fun pe => patch_rpath system pe.1 "$ORIGIN")
  else []

/-- RECORD update (bundle_libs.py lines 169-176): append one
`path,,` line per `turbojpeg_libs` entry to the first
`*.dist-info/RECORD` file, if one exists. -/
def updateRecord (tree : FileTree) : FileTree :=
  match tree.filter (fun pe => isDistInfoRecord pe.1) with
  | [] => tree
  | r :: _ =>
      let lines := String.join
        ((tree.filter (fun pe => (libsMember pe.1).isSome)).map
          (fun pe => pe.1 ++ ",,\n"))
      tree.map (fun pe =>
        if pe.1 = r.1 then
          (pe.1, { content := pe.2.content ++ lines, isSymlink := pe.2.isSymlink })
        else pe)

/-- Error message of the RuntimeError raised when no library directory
is found (bundle_libs.py lines 109-115). -/
def noLibErrMsg : String :=
  "Could not find libjpeg-turbo library. Please install libjpeg-turbo:\n  Linux: sudo apt-get install libturbojpeg\n  macOS: brew install jpeg-turbo\n  Windows: Download from https://libjpeg-turbo.org/"

/-- The extraction of the input wheel into the temporary directory
(bundle_libs.py lines 123-126): every archive entry becomes a regular
file of the tree. -/
def extractTree (entries : List (String × String)) : FileTree :=
  entries.map (fun pc => (pc.1, { content := pc.2, isSymlink := false }))

/-- Embedding of `bundle_wheel` (bundle_libs.py lines 91-188).  The
first component is the returned output (or the raised exception as an
error message); the second lists the externally visible filesystem
effects in order.  When `get_turbojpeg_lib_path` finds nothing the
RuntimeError is raised before the wheel is opened, so the effect list
is empty.  When the main library file is absent from the directory
listing, `shutil.copy2` raises after extraction; the model reports that
as an error after the open effect. -/
def bundle_wheel (env : BundleEnv) : Except String BundleOutput × List Effect :=
  match get_turbojpeg_lib_path env.system env.pathExists with
  | (some libDir, some libName) =>
      let tree0 : FileTree := extractTree env.wheelEntries
      let libFiles := env.libDirListing libDir
      match libFiles.find? (fun f => f.name = libName) with
      | none => (Except.error "FileNotFoundError", [Effect.openWheel env.wheelName])
      | some mainLib =>
          let t1 := copyMainLib tree0 libName mainLib
          let t2 := if env.system = "Linux" then copyVersionedLibs libFiles t1 else t1
          let calls := patchPass env.system t2
          let t3 := updateRecord t2
          let outputWheel := joinPath env.outputDir env.wheelName
          (Except.ok { outputPath := outputWheel, archive := t3, patchCalls := calls },
           [Effect.openWheel env.wheelName, Effect.writeWheel outputWheel])
  | _ => (Except.error noLibErrMsg, [])

/-! ## turbojpeg/__init__.py — symbol re-export module -/

/-- The names imported from `turbojpeg.turbojpeg` by the re-export
module (turbojpeg/__init__.py lines 11-65), in source order. -/
def importedNames : List String :=
  ["TurboJPEG",
   "TJCS_RGB", "TJCS_YCbCr", "TJCS_GRAY", "TJCS_CMYK", "TJCS_YCCK",
   "TJPF_RGB", "TJPF_BGR", "TJPF_RGBX", "TJPF_BGRX", "TJPF_XBGR",
   "TJPF_XRGB", "TJPF_GRAY", "TJPF_RGBA", "TJPF_BGRA", "TJPF_ABGR",
   "TJPF_ARGB", "TJPF_CMYK",
   "TJSAMP_444", "TJSAMP_422", "TJSAMP_420", "TJSAMP_GRAY",
   "TJSAMP_440", "TJSAMP_411", "TJSAMP_441",
   "TJXOP_NONE", "TJXOP_HFLIP", "TJXOP_VFLIP", "TJXOP_TRANSPOSE",
   "TJXOP_TRANSVERSE", "TJXOP_ROT90", "TJXOP_ROT180", "TJXOP_ROT270",
   "TJXOPT_PERFECT", "TJXOPT_TRIM", "TJXOPT_CROP", "TJXOPT_GRAY",
   "TJXOPT_NOOUTPUT", "TJXOPT_PROGRESSIVE", "TJXOPT_COPYNONE",
   "TJFLAG_BOTTOMUP", "TJFLAG_FASTUPSAMPLE", "TJFLAG_FASTDCT",
   "TJFLAG_ACCURATEDCT", "TJFLAG_STOPONWARNING", "TJFLAG_PROGRESSIVE",
   "TJFLAG_LIMITSCANS"]

/-- The `__all__` list of the re-export module (turbojpeg/__init__.py
lines 69-123), in source order. -/
def dunderAll : List String :=
  ["TurboJPEG",
   "TJCS_RGB", "TJCS_YCbCr", "TJCS_GRAY", "TJCS_CMYK", "TJCS_YCCK",
   "TJPF_RGB", "TJPF_BGR", "TJPF_RGBX", "TJPF_BGRX", "TJPF_XBGR",
   "TJPF_XRGB", "TJPF_GRAY", "TJPF_RGBA", "TJPF_BGRA", "TJPF_ABGR",
   "TJPF_ARGB", "TJPF_CMYK",
   "TJSAMP_444", "TJSAMP_422", "TJSAMP_420", "TJSAMP_GRAY",
   "TJSAMP_440", "TJSAMP_411", "TJSAMP_441",
   "TJXOP_NONE", "TJXOP_HFLIP", "TJXOP_VFLIP", "TJXOP_TRANSPOSE",
   "TJXOP_TRANSVERSE", "TJXOP_ROT90", "TJXOP_ROT180", "TJXOP_ROT270",
   "TJXOPT_PERFECT", "TJXOPT_TRIM", "TJXOPT_CROP", "TJXOPT_GRAY",
   "TJXOPT_NOOUTPUT", "TJXOPT_PROGRESSIVE", "TJXOPT_COPYNONE",
   "TJFLAG_BOTTOMUP", "TJFLAG_FASTUPSAMPLE", "TJFLAG_FASTDCT",
   "TJFLAG_ACCURATEDCT", "TJFLAG_STOPONWARNING", "TJFLAG_PROGRESSIVE",
   "TJFLAG_LIMITSCANS"]

/-- A top-level statement of a Python module, at the granularity the
import-order claim needs. -/
inductive PyStmt where
  | moduleDoc
  | importMod (name : String)
  | fromImport (module : String) (names : List String)
  | assign (target : String)
  deriving DecidableEq, Repr

/-- The top-level statements of `turbojpeg/__init__.py`, in source
order: the module docstring, `import torch`, the `from
turbojpeg.turbojpeg import (...)` statement, and the `__version__` and
`__all__` assignments. -/
def turbojpegModuleStatements : List PyStmt :=
  [PyStmt.moduleDoc,
   PyStmt.importMod "torch",
   PyStmt.fromImport "turbojpeg.turbojpeg" importedNames,
   PyStmt.assign "__version__",
   PyStmt.assign "__all__"]

/-! ## Operation classification of the three scripts

Every operation the three source files perform, classified by kind.
The first six constructors are the kinds the specification allows; the
last four are the kinds of JPEG algorithmic work the specification
says never occur in this repository. -/

/-- Kind of an operation performed by repository code. -/
inductive OpKind where
  | subprocessCall
  | fsLookup
  | fsCopy
  | fsArchive
  | stringFormatting
  | symbolReexport
  | dctTransform
  | chromaSubsampling
  | huffmanCoding
  | colorSpaceTransform
  deriving DecidableEq, Repr

/-- The operations of `bundle_libs.py`, in source order:
`get_turbojpeg_lib_path` probes candidate paths (lines 51-53);
`find_library` globs search paths (lines 61-71); `patch_rpath` runs
patchelf (lines 80-84); `bundle_wheel` extracts the wheel (lines
125-126), copies the library files (lines 136-161), patches rpaths via
subprocess (lines 163-167), formats RECORD lines (lines 169-176) and
repacks the archive (lines 178-186). -/
def bundleLibsOps : List OpKind :=
  [OpKind.fsLookup, OpKind.fsLookup, OpKind.subprocessCall,
   OpKind.fsArchive, OpKind.fsCopy, OpKind.fsCopy, OpKind.fsCopy,
   OpKind.subprocessCall, OpKind.stringFormatting, OpKind.fsArchive]

/-- The operations of `setup.py`, in source order: the pkg-config,
dpkg-query, rpm and brew subprocess invocations (lines 21-85), the
regex parsing and suffix formatting of the version string (lines
29-83), and the version-string assembly in `get_version` (lines
91-96). -/
def setupOps : List OpKind :=
  [OpKind.subprocessCall, OpKind.subprocessCall, OpKind.subprocessCall,
   OpKind.subprocessCall, OpKind.stringFormatting, OpKind.stringFormatting]

/-- The operations of `turbojpeg/__init__.py`: importing torch and
re-exporting the binding symbols through `__all__` (lines 9-123). -/
def turbojpegInitOps : List OpKind :=
  [OpKind.symbolReexport, OpKind.symbolReexport]

/-- All operations of the three repository scripts. -/
def repoScriptOps : List OpKind :=
  bundleLibsOps ++ setupOps ++ turbojpegInitOps

/-- The operation kinds that constitute JPEG algorithmic work. -/
def jpegAlgorithmicKinds : List OpKind :=
  [OpKind.dctTransform, OpKind.chromaSubsampling,
   OpKind.huffmanCoding, OpKind.colorSpaceTransform]

/-- The operation kinds the specification allows the scripts to
perform. -/
def allowedOpKinds : List OpKind :=
  [OpKind.subprocessCall, OpKind.fsLookup, OpKind.fsCopy,
   OpKind.fsArchive, OpKind.stringFormatting, OpKind.symbolReexport]

/-! ## Concrete environments used to instantiate the theorems -/

/-- A version environment in which only pkg-config answers, reporting
version 2.1.2. -/
def envPkgConfig : VersionEnv :=
  { pkgConfigModversionLibturbojpeg := CmdResult.ran 0 "2.1.2",
    dpkgQueryVersion := fun _ => CmdResult.notFound,
    rpmQueryLibjpegTurboDevel := CmdResult.notFound,
    brewListVersionsJpegTurbo := CmdResult.notFound }

/-- A bundling environment on an unsupported platform with no library
anywhere. -/
def envNoLib : BundleEnv :=
  { system := "Plan9",
    pathExists := fun _ => false,
    libDirListing := fun _ => [],
    wheelEntries := [],
    wheelName := "pkg.whl",
    outputDir := "/out" }

/-- A regular (non-symlink) library directory file. -/
def mainLibPlain : LibDirFile :=
  { name := "libturbojpeg.so.0", isSymlink := false,
    resolvedName := "libturbojpeg.so.0", content := "ELF" }

/-- A Linux bundling environment in which the library sits in the
first candidate directory and the input wheel has two entries. -/
def envLinuxBundle : BundleEnv :=
  { system := "Linux",
    pathExists := fun s => s = "/usr/lib/x86_64-linux-gnu/libturbojpeg.so.0",
    libDirListing := fun d =>
      if d = "/usr/lib/x86_64-linux-gnu" then [mainLibPlain] else [],
    wheelEntries := [("turbojpeg/core.py", "code"),
                     ("pkg-1.0.dist-info/RECORD", "turbojpeg/core.py,,\n")],
    wheelName := "pkg-1.0-py3-none-any.whl",
    outputDir := "/out" }

/-! ## Supporting lemmas -/

theorem firstSome_eq_none_iff {α : Type} (l : List (Option α)) :
    firstSome l = none ↔ ∀ o ∈ l, o = none := by
  induction l with
  | nil => simp [firstSome]
  | cons o rest ih =>
      cases o with
      | none => simpa [firstSome] using ih
      | some a => simp [firstSome]

theorem findLibLoop_eq_find (pe : String → Bool) (lib : String) (ps : List String) :
    findLibLoop pe lib ps =
      match ps.find? (fun p => pe (joinPath p lib)) with
      | some d => (some d, some lib)
      | none => (none, none) := by
  induction ps with
  | nil => rfl
  | cons p rest ih =>
      unfold findLibLoop
      cases h : pe (joinPath p lib) <;>
        simp [List.find?_cons, h, ih]

theorem existsPath_append (t u : FileTree) (q : String) :
    existsPath (t ++ u) q = (existsPath t q || existsPath u q) := by
  simp [existsPath, List.any_append]

theorem existsPath_map_of_keys (t : FileTree) (f : String × Entry → String × Entry)
    (hf : ∀ x, (f x).1 = x.1) (q : String) :
    existsPath (t.map f) q = existsPath t q := by
  induction t with
  | nil => rfl
  | cons x rest ih =>
      simp only [existsPath, List.map_cons, List.any_cons] at *
      rw [hf x, ih]

theorem existsPath_writeFile_self (t : FileTree) (p : String) (e : Entry) :
    existsPath (writeFile t p e) p = true := by
  unfold writeFile
  split
  next h =>
    rw [existsPath_map_of_keys t _ (fun x => by split <;> simp_all)]
    exact h
  next h =>
    rw [existsPath_append]
    simp [existsPath]

theorem existsPath_writeFile_mono (t : FileTree) (p q : String) (e : Entry)
    (h : existsPath t q = true) : existsPath (writeFile t p e) q = true := by
  unfold writeFile
  split
  next hp =>
    rw [existsPath_map_of_keys t _ (fun x => by split <;> simp_all)]
    exact h
  next hp =>
    rw [existsPath_append, h, Bool.true_or]

theorem existsPath_addExpectedSymlink_mono (t : FileTree) (libName realName : String)
    (q : String) (h : existsPath t q = true) :
    existsPath (addExpectedSymlink t libName realName) q = true := by
  unfold addExpectedSymlink
  split
  · exact h
  · exact existsPath_writeFile_mono _ _ _ _ h

theorem existsPath_copyMainLib_mono (t : FileTree) (libName : String)
    (m : LibDirFile) (q : String) (h : existsPath t q = true) :
    existsPath (copyMainLib t libName m) q = true := by
  unfold copyMainLib
  split
  · exact existsPath_addExpectedSymlink_mono _ _ _ _
      (existsPath_writeFile_mono _ _ _ _ h)
  · exact existsPath_writeFile_mono _ _ _ _ h

theorem existsPath_copyMainLib_dest (t : FileTree) (libName : String)
    (m : LibDirFile) :
    existsPath (copyMainLib t libName m)
      (libsPath (if m.isSymlink then m.resolvedName else libName)) = true := by
  unfold copyMainLib
  by_cases hs : m.isSymlink = true
  · simp only [hs, if_true]
    exact existsPath_addExpectedSymlink_mono _ _ _ _
      (existsPath_writeFile_self _ _ _)
  · simp only [Bool.not_eq_true] at hs
    simp only [hs, Bool.false_eq_true, if_false]
    exact existsPath_writeFile_self _ _ _

theorem existsPath_versionedStep_mono (t : FileTree) (f : LibDirFile) (q : String)
    (h : existsPath t q = true) : existsPath (versionedStep t f) q = true := by
  unfold versionedStep
  split
  · split
    · exact h
    · exact existsPath_writeFile_mono _ _ _ _ h
  · exact h

theorem existsPath_copyVersionedLibs_mono (fs : List LibDirFile) (t : FileTree)
    (q : String) (h : existsPath t q = true) :
    existsPath (copyVersionedLibs fs t) q = true := by
  induction fs generalizing t with
  | nil => exact h
  | cons f rest ih =>
      simp only [copyVersionedLibs, List.foldl_cons] at *
      exact ih _ (existsPath_versionedStep_mono _ _ _ h)

theorem existsPath_copyVersionedLibs_dest (fs : List LibDirFile) (t : FileTree)
    (f : LibDirFile) (hf : f ∈ fs)
    (hc : (f.name.startsWith "libturbojpeg.so" && !f.isSymlink) = true) :
    existsPath (copyVersionedLibs fs t) (libsPath f.name) = true := by
  induction fs generalizing t with
  | nil => cases hf
  | cons g rest ih =>
      simp only [copyVersionedLibs, List.foldl_cons] at *
      rcases List.mem_cons.mp hf with hEq | hMem
      · subst hEq
        apply existsPath_copyVersionedLibs_mono
        unfold versionedStep
        rw [hc, if_pos rfl]
        split
        next h => exact h
        next h => exact existsPath_writeFile_self _ _ _
      · exact ih _ hMem

theorem existsPath_updateRecord (t : FileTree) (q : String) :
    existsPath (updateRecord t) q = existsPath t q := by
  unfold updateRecord
  split
  · rfl
  · exact existsPath_map_of_keys t _ (fun x => by split <;> rfl) q

theorem existsPath_extractTree (entries : List (String × String))
    (pc : String × String) (h : pc ∈ entries) :
    existsPath (extractTree entries) pc.1 = true := by
  unfold existsPath extractTree
  rw [List.any_eq_true]
  refine ⟨(pc.1, { content := pc.2, isSymlink := false }), ?_, by simp⟩
  exact List.mem_map_of_mem _ h

theorem filter_map_of_invariants {α : Type} (t : FileTree)
    (f : String × Entry → String × Entry) (pred : String × Entry → Bool)
    (g : String × Entry → α)
    (hp : ∀ x, pred (f x) = pred x) (hg : ∀ x, g (f x) = g x) :
    ((t.map f).filter pred).map g = (t.filter pred).map g := by
  induction t with
  | nil => rfl
  | cons x rest ih =>
      simp only [List.map_cons, List.filter_cons, hp x]
      cases h : pred x <;> simp [h, ih, hg x]

theorem flatMap_singleton_eq_map {α β : Type} (l : List α) (g : α → β) :
    l.flatMap (fun x => [g x]) = l.map g := by
  induction l with
  | nil => rfl
  | cons x rest ih => simp [List.flatMap_cons, ih]

theorem digitSpan_digits (l : List Char) : ∀ c ∈ (digitSpan l).1, c.isDigit = true := by
  induction l with
  | nil => intro c hc; cases hc
  | cons x rest ih =>
      intro c hc
      by_cases h : x.isDigit = true
      · simp only [digitSpan, h, if_true] at hc
        rcases List.mem_cons.mp hc with rfl | hmem
        · exact h
        · exact ih c hmem
      · simp only [digitSpan, h, Bool.false_eq_true, if_false] at hc
        cases hc

theorem reMatchVer_shape (l g1 g2 g3 : List Char)
    (h : reMatchVer l = some (g1, g2, g3)) :
    (∀ c ∈ g1, c.isDigit = true) ∧ (∀ c ∈ g2, c.isDigit = true) ∧
      (∀ c ∈ g3, c.isDigit = true) ∧ g1 ≠ [] ∧ g2 ≠ [] ∧ g3 ≠ [] := by
  unfold reMatchVer at h
  split at h
  · cases h
  · rename_i h1
    split at h
    · cases h
    · rename_i c1 r1 heq1
      split at h
      · split at h
        · cases h
        · rename_i h2
          split at h
          · cases h
          · rename_i c2 r2 heq2
            split at h
            · split at h
              · cases h
              · rename_i h3
                simp only [Option.some.injEq, Prod.mk.injEq] at h
                obtain ⟨rfl, rfl, rfl⟩ := h
                exact ⟨digitSpan_digits l, digitSpan_digits r1,
                  digitSpan_digits r2, h1, h2, h3⟩
            · cases h
      · cases h

theorem reSearchVer_shape (l : List Char) : ∀ g1 g2 g3 : List Char,
    reSearchVer l = some (g1, g2, g3) →
    (∀ c ∈ g1, c.isDigit = true) ∧ (∀ c ∈ g2, c.isDigit = true) ∧
      (∀ c ∈ g3, c.isDigit = true) ∧ g1 ≠ [] ∧ g2 ≠ [] ∧ g3 ≠ [] := by
  induction l with
  | nil => exact fun g1 g2 g3 h => reMatchVer_shape [] g1 g2 g3 h
  | cons c cs ih =>
      intro g1 g2 g3 h
      unfold reSearchVer at h
      cases hm : reMatchVer (c :: cs) with
      | some r => rw [hm] at h; cases h; exact reMatchVer_shape _ g1 g2 g3 hm
      | none => rw [hm] at h; exact ih g1 g2 g3 h

theorem versionSuffixOfMatch_shape (r : CmdResult) (s : String)
    (h : versionSuffixOfMatch r = some s) :
    ∃ g1 g2 g3 : List Char, (∀ c ∈ g1, c.isDigit = true) ∧
      (∀ c ∈ g2, c.isDigit = true) ∧ (∀ c ∈ g3, c.isDigit = true) ∧
      g1 ≠ [] ∧ g2 ≠ [] ∧ g3 ≠ [] ∧ s = mkTj g1 g2 g3 := by
  cases r with
  | notFound => cases h
  | ran rc out =>
      simp only [versionSuffixOfMatch] at h
      split at h
      · cases hm : reMatchVer (stripChars out.data) with
        | none => simp only [hm] at h; cases h
        | some trip =>
            obtain ⟨g1, g2, g3⟩ := trip
            simp only [hm, Option.some.injEq] at h
            obtain ⟨h1, h2, h3, h4, h5, h6⟩ := reMatchVer_shape _ g1 g2 g3 hm
            exact ⟨g1, g2, g3, h1, h2, h3, h4, h5, h6, h.symm⟩
      · cases h

theorem versionSuffixOfSearch_shape (r : CmdResult) (s : String)
    (h : versionSuffixOfSearch r = some s) :
    ∃ g1 g2 g3 : List Char, (∀ c ∈ g1, c.isDigit = true) ∧
      (∀ c ∈ g2, c.isDigit = true) ∧ (∀ c ∈ g3, c.isDigit = true) ∧
      g1 ≠ [] ∧ g2 ≠ [] ∧ g3 ≠ [] ∧ s = mkTj g1 g2 g3 := by
  cases r with
  | notFound => cases h
  | ran rc out =>
      simp only [versionSuffixOfSearch] at h
      split at h
      · cases hm : reSearchVer (stripChars out.data) with
        | none => simp only [hm] at h; cases h
        | some trip =>
            obtain ⟨g1, g2, g3⟩ := trip
            simp only [hm, Option.some.injEq] at h
            obtain ⟨h1, h2, h3, h4, h5, h6⟩ := reSearchVer_shape _ g1 g2 g3 hm
            exact ⟨g1, g2, g3, h1, h2, h3, h4, h5, h6, h.symm⟩
      · cases h

theorem firstSome_eq_some_mem {α : Type} (l : List (Option α)) (a : α)
    (h : firstSome l = some a) : some a ∈ l := by
  induction l with
  | nil => cases h
  | cons o rest ih =>
      cases o with
      | some b =>
          simp only [firstSome, Option.some.injEq] at h
          subst h
          exact List.mem_cons_self _ _
      | none =>
          simp only [firstSome] at h
          exact List.mem_cons_of_mem _ (ih h)

theorem gtv_eq_detectSpec (env : VersionEnv) :
    get_turbojpeg_version env = detectVersionSuffixSpec env := by
  unfold get_turbojpeg_version detectVersionSuffixSpec versionAttemptsInOrder
  cases versionSuffixOfMatch env.pkgConfigModversionLibturbojpeg <;>
    cases versionSuffixOfMatch (env.dpkgQueryVersion "libturbojpeg") <;>
    cases versionSuffixOfMatch (env.dpkgQueryVersion "libturbojpeg0") <;>
    cases versionSuffixOfMatch (env.dpkgQueryVersion "libjpeg-turbo8") <;>
    cases versionSuffixOfMatch env.rpmQueryLibjpegTurboDevel <;>
    cases versionSuffixOfSearch env.brewListVersionsJpegTurbo <;>
    simp [firstSome]

theorem gtv_shape (env : VersionEnv) (s : String)
    (h : get_turbojpeg_version env = some s) :
    ∃ g1 g2 g3 : List Char, (∀ c ∈ g1, c.isDigit = true) ∧
      (∀ c ∈ g2, c.isDigit = true) ∧ (∀ c ∈ g3, c.isDigit = true) ∧
      g1 ≠ [] ∧ g2 ≠ [] ∧ g3 ≠ [] ∧ s = mkTj g1 g2 g3 := by
  rw [gtv_eq_detectSpec] at h
  have hmem := firstSome_eq_some_mem _ _ h
  simp only [versionAttemptsInOrder, List.mem_cons, List.mem_singleton,
    List.not_mem_nil, or_false] at hmem
  rcases hmem with h1 | h1 | h1 | h1 | h1 | h1
  · exact versionSuffixOfMatch_shape _ _ h1.symm
  · exact versionSuffixOfMatch_shape _ _ h1.symm
  · exact versionSuffixOfMatch_shape _ _ h1.symm
  · exact versionSuffixOfMatch_shape _ _ h1.symm
  · exact versionSuffixOfMatch_shape _ _ h1.symm
  · exact versionSuffixOfSearch_shape _ _ h1.symm

theorem mkTj_ne_empty (g1 g2 g3 : List Char) : mkTj g1 g2 g3 ≠ "" := by
  simp [mkTj, String.ext_iff]

theorem plus_not_mem_mkTj (g1 g2 g3 : List Char)
    (h1 : ∀ c ∈ g1, c.isDigit = true) (h2 : ∀ c ∈ g2, c.isDigit = true)
    (h3 : ∀ c ∈ g3, c.isDigit = true) :
    ('+' : Char) ∉ (mkTj g1 g2 g3).data := by
  intro hmem
  simp only [mkTj, List.mem_cons, List.mem_append] at hmem
  rcases hmem with h | h | (h | h) | h
  · cases h
  · cases h
  · simpa using h1 _ h
  · simpa using h2 _ h
  · simpa using h3 _ h

/-! ## Claim theorems -/

/-- C4: the re-export module's `__all__` lists exactly the set of
names imported from `turbojpeg.turbojpeg` (the TurboJPEG class plus
the constant groups): the two name lists agree, so every imported name
appears in `__all__` and every name in `__all__` is imported. -/
theorem c4_all_matches_imports :
    importedNames = dunderAll ∧
      ∀ s : String, (s ∈ importedNames ↔ s ∈ dunderAll) :=
  ⟨rfl, fun _ => Iff.rfl⟩

/-- C5: in the top-level statement order of `turbojpeg/__init__.py`,
an `import torch` statement occurs, the binding import from
`turbojpeg.turbojpeg` occurs, and every occurrence of the former
precedes every occurrence of the latter: torch is imported before the
binding symbols are loaded. -/
theorem c5_torch_imported_first :
    (∃ i : Fin turbojpegModuleStatements.length,
      turbojpegModuleStatements.get i = PyStmt.importMod "torch") ∧
    (∃ j : Fin turbojpegModuleStatements.length,
      turbojpegModuleStatements.get j =
        PyStmt.fromImport "turbojpeg.turbojpeg" importedNames) ∧
    (∀ i j : Fin turbojpegModuleStatements.length,
      turbojpegModuleStatements.get i = PyStmt.importMod "torch" →
      turbojpegModuleStatements.get j =
        PyStmt.fromImport "turbojpeg.turbojpeg" importedNames →
      (i : Nat) < (j : Nat)) := by
  refine ⟨⟨⟨1, by decide⟩, rfl⟩, ⟨⟨2, by decide⟩, rfl⟩, ?_⟩
  decide

theorem c5_torch_imported_first_witness :
    ((⟨1, by decide⟩ : Fin turbojpegModuleStatements.length) : Nat) <
      ((⟨2, by decide⟩ : Fin turbojpegModuleStatements.length) : Nat) :=
  c5_torch_imported_first.2.2 ⟨1, by decide⟩ ⟨2, by decide⟩ (by decide) (by decide)

/-- C6: every operation of the three scripts is subprocess invocation,
filesystem lookup, file copying, archive handling, version-string
formatting or symbol re-export; none is DCT, chroma subsampling,
Huffman coding or a color-space transform. -/
theorem c6_no_jpeg_algorithm_ops :
    (∀ op ∈ repoScriptOps, op ∈ allowedOpKinds) ∧
    (∀ op ∈ repoScriptOps, op ∉ jpegAlgorithmicKinds) := by
  decide

theorem c6_no_jpeg_algorithm_ops_witness :
    OpKind.fsLookup ∈ allowedOpKinds ∧ OpKind.fsLookup ∉ jpegAlgorithmicKinds :=
  ⟨c6_no_jpeg_algorithm_ops.1 OpKind.fsLookup (by decide),
   c6_no_jpeg_algorithm_ops.2 OpKind.fsLookup (by decide)⟩

/-- C9: `get_turbojpeg_lib_path` returns `(None, None)` on every
platform other than Linux, Darwin and Windows; on a supported platform
it returns the first candidate directory (in the hard-coded order)
whose joined path exists, or `(None, None)` when no candidate
directory holds the library name; any non-None result points at an
existing file. -/
theorem c9_lib_path_cases (system : String) (pathExists : String → Bool) :
    (system ≠ "Linux" → system ≠ "Darwin" → system ≠ "Windows" →
      get_turbojpeg_lib_path system pathExists = (none, none)) ∧
    (∀ paths libName, systemLibCandidates system = some (paths, libName) →
      get_turbojpeg_lib_path system pathExists =
        match paths.find? (fun p => pathExists (joinPath p libName)) with
        | some d => (some d, some libName)
        | none => (none, none)) ∧
    (∀ d n, get_turbojpeg_lib_path system pathExists = (some d, some n) →
      pathExists (joinPath d n) = true) := by
  refine ⟨?_, ?_, ?_⟩
  · intro h1 h2 h3
    unfold get_turbojpeg_lib_path systemLibCandidates
    rw [if_neg h1, if_neg h2, if_neg h3]
  · intro paths libName hc
    unfold get_turbojpeg_lib_path
    simp only [hc]
    exact findLibLoop_eq_find pathExists libName paths
  · intro d n h
    unfold get_turbojpeg_lib_path at h
    cases hc : systemLibCandidates system with
    | none =>
        simp only [hc] at h
        exact Option.noConfusion (congrArg Prod.fst h)
    | some pl =>
        obtain ⟨paths, libName⟩ := pl
        rw [hc] at h
        simp only [findLibLoop_eq_find] at h
        cases hf : paths.find? (fun p => pathExists (joinPath p libName)) with
        | none =>
            simp only [hf] at h
            exact Option.noConfusion (congrArg Prod.fst h)
        | some dd =>
            simp only [hf, Prod.mk.injEq, Option.some.injEq] at h
            obtain ⟨rfl, rfl⟩ := h
            simpa using List.find?_some hf

theorem c9_lib_path_cases_witness :
    get_turbojpeg_lib_path "FreeBSD" (fun _ => false) = (none, none) :=
  (c9_lib_path_cases "FreeBSD" (fun _ => false)).1 (by decide) (by decide) (by decide)

/-- C7: when `get_turbojpeg_lib_path` finds no library directory,
`bundle_wheel` stops with the RuntimeError whose message carries the
installation instructions, and its effect list is empty: the input
wheel is never opened and no file is extracted, copied or written, so
no output wheel is produced and the filesystem is unchanged. -/
theorem c7_missing_lib_raises_before_io (env : BundleEnv)
    (h : get_turbojpeg_lib_path env.system env.pathExists = (none, none)) :
    bundle_wheel env = (Except.error noLibErrMsg, []) ∧
    List.IsInfix "Please install libjpeg-turbo".data noLibErrMsg.data := by
  constructor
  · unfold bundle_wheel
    rw [h]
  · decide

theorem c7_missing_lib_raises_before_io_witness :
    bundle_wheel envNoLib = (Except.error noLibErrMsg, []) :=
  (c7_missing_lib_raises_before_io envNoLib (by decide)).1

/-- C2: `get_turbojpeg_version` equals the first successful attempt of
the fixed sequence pkg-config, dpkg-query for libturbojpeg,
libturbojpeg0 and libjpeg-turbo8 in that order, rpm, then brew; it is
`None` exactly when every attempt fails or no output parses; and every
returned suffix is `tj` followed by the three matched dot-separated
digit groups. -/
theorem c2_version_detection_order (env : VersionEnv) :
    get_turbojpeg_version env = detectVersionSuffixSpec env ∧
    (get_turbojpeg_version env = none ↔
      ∀ o ∈ versionAttemptsInOrder env, o = none) ∧
    (∀ s, get_turbojpeg_version env = some s →
      ∃ g1 g2 g3 : List Char, (∀ c ∈ g1, c.isDigit = true) ∧
        (∀ c ∈ g2, c.isDigit = true) ∧ (∀ c ∈ g3, c.isDigit = true) ∧
        g1 ≠ [] ∧ g2 ≠ [] ∧ g3 ≠ [] ∧ s = mkTj g1 g2 g3) := by
  refine ⟨gtv_eq_detectSpec env, ?_, fun s h => gtv_shape env s h⟩
  rw [gtv_eq_detectSpec env]
  exact firstSome_eq_none_iff _

theorem c2_version_detection_order_witness :
    ∃ g1 g2 g3 : List Char, (∀ c ∈ g1, c.isDigit = true) ∧
      (∀ c ∈ g2, c.isDigit = true) ∧ (∀ c ∈ g3, c.isDigit = true) ∧
      g1 ≠ [] ∧ g2 ≠ [] ∧ g3 ≠ [] ∧ "tj212" = mkTj g1 g2 g3 :=
  (c2_version_detection_order envPkgConfig).2.2 "tj212" (by decide)

/-- C8: `get_version` always extends BASE_VERSION, which is `2.0.0`:
it is `2.0.0+suffix` when detection returns a suffix and exactly
`2.0.0` when detection returns `None`, and its text contains a plus
sign precisely when detection succeeded. -/
theorem c8_get_version_shape (env : VersionEnv) :
    BASE_VERSION = "2.0.0" ∧
    (∀ s, get_turbojpeg_version env = some s →
      get_version env = BASE_VERSION ++ "+" ++ s) ∧
    (get_turbojpeg_version env = none → get_version env = BASE_VERSION) ∧
    (∃ r, get_version env = "2.0.0" ++ r) ∧
    (('+' : Char) ∈ (get_version env).data ↔
      (get_turbojpeg_version env).isSome) := by
  cases hv : get_turbojpeg_version env with
  | none =>
      refine ⟨rfl, ?_, ?_, ?_, ?_⟩
      · intro s hs
        exact Option.noConfusion hs
      · intro _
        unfold get_version
        rw [hv]
      · refine ⟨"", ?_⟩
        unfold get_version
        rw [hv]
        decide
      · constructor
        · intro hmem
          unfold get_version at hmem
          rw [hv] at hmem
          exact absurd hmem (by decide)
        · intro hsome
          simp at hsome
  | some s =>
      obtain ⟨g1, g2, g3, d1, d2, d3, n1, n2, n3, rfl⟩ := gtv_shape env s hv
      have hne : mkTj g1 g2 g3 ≠ "" := mkTj_ne_empty g1 g2 g3
      have hgv : get_version env = BASE_VERSION ++ "+" ++ mkTj g1 g2 g3 := by
        unfold get_version
        rw [hv]
        exact if_neg hne
      refine ⟨rfl, ?_, ?_, ?_, ?_⟩
      · intro s2 hs2
        injection hs2 with hs2
        rw [← hs2]
        exact hgv
      · intro hnone
        exact Option.noConfusion hnone
      · refine ⟨"+" ++ mkTj g1 g2 g3, ?_⟩
        rw [hgv]
        apply String.ext
        simp [String.data_append, BASE_VERSION]
      · rw [hgv]
        simp only [Option.isSome_some, iff_true]
        rw [String.data_append]
        exact List.mem_append_left _ (by decide)

theorem c8_get_version_shape_witness :
    get_version envPkgConfig = BASE_VERSION ++ "+" ++ "tj212" :=
  (c8_get_version_shape envPkgConfig).2.1 "tj212" (by decide)

/-- C1: whenever a libjpeg-turbo library is found (and the directory
listing contains the chosen name), `bundle_wheel` succeeds, writing
the repacked archive at `output_dir/<original wheel name>`; the output
archive keeps every path of the original wheel and additionally holds
the copied library file under `turbojpeg_libs/`, and on Linux also
every copied non-symlink `libturbojpeg.so*` versioned file. -/
theorem c1_bundle_wheel_bundles_libs (env : BundleEnv) (libDir libName : String)
    (mainLib : LibDirFile)
    (hfind : get_turbojpeg_lib_path env.system env.pathExists =
      (some libDir, some libName))
    (hmain : (env.libDirListing libDir).find? (fun f => f.name = libName) =
      some mainLib) :
    ∃ out : BundleOutput,
      bundle_wheel env =
        (Except.ok out,
         [Effect.openWheel env.wheelName, Effect.writeWheel out.outputPath]) ∧
      out.outputPath = joinPath env.outputDir env.wheelName ∧
      (∀ pc ∈ env.wheelEntries, existsPath out.archive pc.1 = true) ∧
      existsPath out.archive
        (libsPath (if mainLib.isSymlink then mainLib.resolvedName else libName)) =
        true ∧
      (env.system = "Linux" → ∀ f ∈ env.libDirListing libDir,
        f.name.startsWith "libturbojpeg.so" = true → f.isSymlink = false →
        existsPath out.archive (libsPath f.name) = true) := by
  have hbw : bundle_wheel env =
      (Except.ok
        { outputPath := joinPath env.outputDir env.wheelName,
          archive := updateRecord
            (if env.system = "Linux" then
              copyVersionedLibs (env.libDirListing libDir)
                (copyMainLib (extractTree env.wheelEntries) libName mainLib)
             else copyMainLib (extractTree env.wheelEntries) libName mainLib),
          patchCalls := patchPass env.system
            (if env.system = "Linux" then
              copyVersionedLibs (env.libDirListing libDir)
                (copyMainLib (extractTree env.wheelEntries) libName mainLib)
             else copyMainLib (extractTree env.wheelEntries) libName mainLib) },
       [Effect.openWheel env.wheelName,
        Effect.writeWheel (joinPath env.outputDir env.wheelName)]) := by
    simp only [bundle_wheel, hfind, hmain]
  refine ⟨_, hbw, rfl, ?_, ?_, ?_⟩
  · intro pc hpc
    show existsPath (updateRecord _) pc.1 = true
    rw [existsPath_updateRecord]
    by_cases hL : env.system = "Linux"
    · rw [if_pos hL]
      exact existsPath_copyVersionedLibs_mono _ _ _
        (existsPath_copyMainLib_mono _ _ _ _ (existsPath_extractTree _ _ hpc))
    · rw [if_neg hL]
      exact existsPath_copyMainLib_mono _ _ _ _ (existsPath_extractTree _ _ hpc)
  · show existsPath (updateRecord _) _ = true
    rw [existsPath_updateRecord]
    by_cases hL : env.system = "Linux"
    · rw [if_pos hL]
      exact existsPath_copyVersionedLibs_mono _ _ _
        (existsPath_copyMainLib_dest _ _ _)
    · rw [if_neg hL]
      exact existsPath_copyMainLib_dest _ _ _
  · intro hL f hf hstart hsym
    show existsPath (updateRecord _) _ = true
    rw [existsPath_updateRecord, if_pos hL]
    exact existsPath_copyVersionedLibs_dest _ _ f hf (by rw [hstart, hsym]; rfl)

/-- C3: the load-path adjustment: on Linux, `bundle_wheel` issues one
`patchelf --set-rpath $ORIGIN` invocation for every non-symlink
`*.so*` file under `turbojpeg_libs` in the bundled archive; on every
platform other than Linux, `patch_rpath` issues no subprocess
invocation at all, leaving the library file unchanged. -/
theorem c3_rpath_patching (env : BundleEnv) (libDir libName : String)
    (mainLib : LibDirFile)
    (hfind : get_turbojpeg_lib_path env.system env.pathExists =
      (some libDir, some libName))
    (hmain : (env.libDirListing libDir).find? (fun f => f.name = libName) =
      some mainLib) :
    (∀ sys p r, sys ≠ "Linux" → patch_rpath sys p r = []) ∧
    ∃ out : BundleOutput,
      (bundle_wheel env).1 = Except.ok out ∧
      (env.system = "Linux" →
        out.patchCalls =
          (out.archive.filter (fun pe =>
            (match libsMember pe.1 with
             | some n => globSoStar n
             | none => false) && !pe.2.isSymlink)).map
            (fun pe => ["patchelf", "--set-rpath", "$ORIGIN", pe.1])) ∧
      (env.system ≠ "Linux" → out.patchCalls = []) := by
  constructor
  · intro sys p r h
    unfold patch_rpath
    rw [if_neg h]
  · have hbw : bundle_wheel env =
        (Except.ok
          { outputPath := joinPath env.outputDir env.wheelName,
            archive := updateRecord
              (if env.system = "Linux" then
                copyVersionedLibs (env.libDirListing libDir)
                  (copyMainLib (extractTree env.wheelEntries) libName mainLib)
               else copyMainLib (extractTree env.wheelEntries) libName mainLib),
            patchCalls := patchPass env.system
              (if env.system = "Linux" then
                copyVersionedLibs (env.libDirListing libDir)
                  (copyMainLib (extractTree env.wheelEntries) libName mainLib)
               else copyMainLib (extractTree env.wheelEntries) libName mainLib) },
         [Effect.openWheel env.wheelName,
          Effect.writeWheel (joinPath env.outputDir env.wheelName)]) := by
      simp only [bundle_wheel, hfind, hmain]
    refine ⟨_, by rw [hbw], ?_, ?_⟩
    · intro hL
      show patchPass env.system _ =
        ((updateRecord _).filter _).map _
      rw [if_pos hL]
      unfold patchPass
      rw [if_pos hL]
      have hpr : ∀ pe : String × Entry,
          patch_rpath env.system pe.1 "$ORIGIN" =
            [["patchelf", "--set-rpath", "$ORIGIN", pe.1]] := by
        intro pe
        unfold patch_rpath
        rw [if_pos hL]
      simp only [hpr]
      rw [flatMap_singleton_eq_map]
      unfold updateRecord
      split
      · rfl
      · rename_i r tail heq
        refine (filter_map_of_invariants _ _ _ _ ?_ ?_).symm
        · intro x
          by_cases hx : x.1 = r.1
          · rw [if_pos hx]
          · rw [if_neg hx]
        · intro x
          by_cases hx : x.1 = r.1
          · rw [if_pos hx]
          · rw [if_neg hx]
    · intro hL
      show patchPass env.system _ = []
      unfold patchPass
      rw [if_neg hL]

theorem c1_bundle_wheel_bundles_libs_witness :
    ∃ out : BundleOutput,
      bundle_wheel envLinuxBundle =
        (Except.ok out,
         [Effect.openWheel envLinuxBundle.wheelName,
          Effect.writeWheel out.outputPath]) ∧
      out.outputPath = joinPath envLinuxBundle.outputDir envLinuxBundle.wheelName ∧
      (∀ pc ∈ envLinuxBundle.wheelEntries, existsPath out.archive pc.1 = true) ∧
      existsPath out.archive
        (libsPath (if mainLibPlain.isSymlink then mainLibPlain.resolvedName
                   else "libturbojpeg.so.0")) = true ∧
      (envLinuxBundle.system = "Linux" →
        ∀ f ∈ envLinuxBundle.libDirListing "/usr/lib/x86_64-linux-gnu",
        f.name.startsWith "libturbojpeg.so" = true → f.isSymlink = false →
        existsPath out.archive (libsPath f.name) = true) :=
  c1_bundle_wheel_bundles_libs envLinuxBundle "/usr/lib/x86_64-linux-gnu"
    "libturbojpeg.so.0" mainLibPlain (by decide) (by decide)

theorem c3_rpath_patching_witness :
    patch_rpath "Darwin" "/tmp/libturbojpeg.so.0" "$ORIGIN" = [] :=
  (c3_rpath_patching envLinuxBundle "/usr/lib/x86_64-linux-gnu"
    "libturbojpeg.so.0" mainLibPlain (by decide) (by decide)).1
    "Darwin" "/tmp/libturbojpeg.so.0" "$ORIGIN" (by decide)

end TurboJpegTorch
